import Mathlib

/-!
Shallow embedding of the JWT authentication gateway
(`src/api/security.py`, `src/api/database.py`, `src/api/routes_v1.py`,
`src/api/main.py`).

Modelling conventions:
* Time is `Int` (UTC epoch seconds); a `timedelta` is an `Int` number of seconds.
* The password-hashing backend (passlib's bcrypt `CryptContext`) is modelled
  abstractly: a stored hash is either a well-formed bcrypt digest of some
  password, or a malformed string.  `CryptContext.verify` succeeds with the
  comparison result on a well-formed hash and raises (returns `Except.error`)
  on a hash it cannot identify, which is passlib's documented behaviour.
* The JWT backend (python-jose, not part of this repository) is modelled from
  the spec's invariant: a token is either a payload signed with a secret and an
  algorithm name, or a malformed string; `jwt.decode` checks structure, then
  signature (secret and algorithm), then that the embedded expiry is strictly
  in the future, reporting distinct error kinds.
* Python exceptions become `Except`; an uncaught exception escaping a route
  handler is a distinguished `RequestFailure` constructor.
* `HTTPException(status_code, detail)` becomes `RequestFailure.http`.
* The SQLAlchemy user table becomes a `List User`; primary-key lookup
  (`db.get(User, username)`) becomes lookup by username equality.
-/

deriving instance DecidableEq for Except

namespace SecureApiGateway

/-- `Settings` from `src/api/config.py` (the fields the auth core reads).
`jwt_secret` defaults to `""` when the environment variable is absent. -/
structure Settings where
  jwt_secret : String
  jwt_algorithm : String
  access_token_expires_minutes : Int
deriving DecidableEq, Repr

/-- `Settings.access_token_expires_delta` from `config.py`: the token
time-to-live as a duration (seconds here, `timedelta` in the source). -/
def Settings.access_token_expires_delta (s : Settings) : Int :=
  s.access_token_expires_minutes * 60

/-- A stored password hash: either a well-formed bcrypt digest of a password,
or a string the hashing backend cannot identify. -/
inductive StoredHash where
  | bcrypt (password : String)
  | malformed (raw : String)
deriving DecidableEq, Repr

/-- Errors raised by the passlib hashing backend. -/
inductive HashError where
  | unknownHash
deriving DecidableEq, Repr

/-- passlib `CryptContext(schemes=["bcrypt"]).verify`: compares against a
well-formed bcrypt hash, raises `UnknownHashError` on a hash it cannot
identify (passlib's documented behaviour). -/
def CryptContext.verify (plain : String) (h : StoredHash) : Except HashError Bool :=
  match h with
  | .bcrypt stored => .ok (plain == stored)
  | .malformed _ => .error .unknownHash

/-- `verify_password` from `security.py`: a direct pass-through to
`pwd_context.verify` with no exception handling of its own. -/
def verify_password (plain_password : String) (password_hash : StoredHash) :
    Except HashError Bool :=
  CryptContext.verify plain_password password_hash

/-- A decoded JWT payload as built by `create_access_token`:
`{"sub": subject, "exp": expiry}`.  `sub` is optional because `payload.get("sub")`
may be absent in a foreign token. -/
structure JwtPayload where
  sub : Option String
  exp : Int
deriving DecidableEq, Repr

/-- A token string, viewed structurally: either a well-formed signed token
(payload, signing secret, algorithm name) or a malformed string. -/
inductive JwtToken where
  | signed (payload : JwtPayload) (secret : String) (alg : String)
  | malformed (raw : String)
deriving DecidableEq, Repr

/-- The distinct failure kinds of JWT parsing (all subclasses of `JWTError`
in the jose library). -/
inductive JoseError where
  | malformedStructure
  | invalidSignature
  | expiredSignature
deriving DecidableEq, Repr

/-- `jose.jwt.encode`: sign the payload with the given secret and algorithm. -/
def jwt.encode (payload : JwtPayload) (secret : String) (alg : String) : JwtToken :=
  .signed payload secret alg

/-- `jose.jwt.decode` (library not in this repository; modelled from the
spec's validity invariant): reject a malformed structure, then verify the
signature against the configured secret and allowed algorithm, then require
the embedded expiry to be strictly in the future. -/
def jwt.decode (token : JwtToken) (secret : String) (alg : String) (now : Int) :
    Except JoseError JwtPayload :=
  match token with
  | .malformed _ => .error .malformedStructure
  | .signed payload tokSecret tokAlg =>
    if tokSecret == secret && tokAlg == alg then
      if now < payload.exp then .ok payload
      else .error .expiredSignature
    else .error .invalidSignature

/-- `create_access_token` from `security.py`: encode `{sub, exp := now + ttl}`
signed with the configured secret and algorithm.  The caller always passes
`expires_delta` explicitly in this repository (`routes_v1.get_token`). -/
def create_access_token (cfg : Settings) (now : Int) (subject : String)
    (expires_delta : Int) : JwtToken :=
  jwt.encode { sub := some subject, exp := now + expires_delta }
    cfg.jwt_secret cfg.jwt_algorithm

/-- `decode_access_token` from `security.py`: decode and return
`payload.get("sub")`, catching every `JWTError` as `None`. -/
def decode_access_token (cfg : Settings) (now : Int) (token : JwtToken) :
    Option String :=
  match jwt.decode token cfg.jwt_secret cfg.jwt_algorithm now with
  | .ok payload => payload.sub
  | .error _ => none

/-- The `users` table row from `database.py`. -/
structure User where
  username : String
  password_hash : StoredHash
  created_at : Option Int
deriving DecidableEq, Repr

/-- `get_user_by_username` from `database.py`: primary-key lookup by
username. -/
def get_user_by_username (db : List User) (username : String) : Option User :=
  db.find? (fun u => u.username == username)

/-- How a route invocation fails: an `HTTPException(status_code, detail)`
raised deliberately, or an exception from the hashing backend escaping the
handler uncaught. -/
inductive RequestFailure where
  | http (status_code : Nat) (detail : String)
  | uncaughtHashError (e : HashError)
deriving DecidableEq, Repr

/-- The `TokenResponse` body from `routes_v1.py`. -/
structure TokenResponse where
  access_token : JwtToken
  token_type : String
deriving DecidableEq, Repr

/-- The `LoginRequest` body from `routes_v1.py`. -/
structure LoginRequest where
  username : String
  password : String
deriving DecidableEq, Repr

/-- `get_token` (`POST /v1.0/get_token`) from `routes_v1.py`:
check the signing secret is configured (Python's `if not settings.jwt_secret`
is an emptiness test), look the user up, verify the password (an error from
the hashing backend is not caught), and issue a token with the configured
default time-to-live. -/
def get_token (cfg : Settings) (now : Int) (db : List User)
    (payload : LoginRequest) : Except RequestFailure TokenResponse :=
  if cfg.jwt_secret == "" then
    .error (.http 500 "JWT secret is not configured")
  else
    match get_user_by_username db payload.username with
    | none => .error (.http 401 "Invalid credentials")
    | some user =>
      match verify_password payload.password user.password_hash with
      | .error e => .error (.uncaughtHashError e)
      | .ok passwordOk =>
        if passwordOk then
          .ok { access_token :=
                  create_access_token cfg now user.username
                    cfg.access_token_expires_delta,
                token_type := "bearer" }
        else
          .error (.http 401 "Invalid credentials")

/-- `get_current_user` from `routes_v1.py`: decode the token; Python's
`if not username` rejects both `None` and the empty-string subject; then look
the subject up in the store. -/
def get_current_user (cfg : Settings) (now : Int) (db : List User)
    (token : JwtToken) : Except RequestFailure User :=
  match decode_access_token cfg now token with
  | none => .error (.http 401 "Invalid token")
  | some username =>
    if username == "" then
      .error (.http 401 "Invalid token")
    else
      match get_user_by_username db username with
      | none => .error (.http 401 "User not found")
      | some user => .ok user

/-- Outcome of attempting `SELECT 1` on the engine: connectivity failures
surface as SQLAlchemy `OperationalError`. -/
inductive ConnAttempt where
  | ok
  | operationalError (msg : String)
deriving DecidableEq, Repr

/-- `verify_connection` from `database.py`: `True` on success, catches
`OperationalError`, logs it and returns `False`. -/
def verify_connection (conn : ConnAttempt) : Bool :=
  match conn with
  | .ok => true
  | .operationalError _ => false

/-- The `/v1.0/health` response body. -/
structure HealthResponse where
  status : String
deriving DecidableEq, Repr

/-- `health` (`GET /v1.0/health`) from `routes_v1.py`: calls
`verify_connection` for its logging side effect only, then returns ok. -/
def health (conn : ConnAttempt) : HealthResponse :=
  let _ := verify_connection conn
  { status := "ok" }

/-- The root health response body from `main.py`. -/
structure RootHealthResponse where
  status : String
  message : String
deriving DecidableEq, Repr

/-- `health_check` (`GET /`) from `main.py`: a constant body, the store is
never touched. -/
def health_check : RootHealthResponse :=
  { status := "ok", message := "Healthy" }

/-! Concrete fixtures used by witnesses and counterexamples. -/

/-- A concrete configuration with a signing secret set. -/
def cfgW : Settings :=
  { jwt_secret := "secret", jwt_algorithm := "HS256", access_token_expires_minutes := 30 }

/-- A concrete configuration with no signing secret (the env-var default). -/
def cfgNoSecret : Settings :=
  { jwt_secret := "", jwt_algorithm := "HS256", access_token_expires_minutes := 30 }

/-- A concrete one-user store. -/
def dbW : List User :=
  [{ username := "alice", password_hash := .bcrypt "pw", created_at := none }]

/-- A concrete store whose only user has the empty string as username. -/
def dbEmptyName : List User :=
  [{ username := "", password_hash := .bcrypt "pw", created_at := none }]

/-- A found user's username is the looked-up key (primary-key lookup). -/
theorem username_of_find {db : List User} {u : String} {rec : User}
    (h : get_user_by_username db u = some rec) : rec.username = u := by
  have h' : List.find? (fun x => x.username == u) db = some rec := h
  have h2 : (rec.username == u) = true :=
    List.find?_some (p := fun x => x.username == u) (a := rec) h'
  exact eq_of_beq h2

/-- C3 counterexample: on a hash the backend cannot identify, `verify_password`
propagates the backend's error instead of returning `false` (it has no
exception handling), so the claim "returns false on a malformed hash, never
raises" is false at this input. -/
theorem verify_password_malformed_counterexample :
    verify_password "pw" (.malformed "not-a-bcrypt-hash") = .error .unknownHash ∧
    verify_password "pw" (.malformed "not-a-bcrypt-hash") ≠ .ok false ∧
    verify_password "pw" (.malformed "not-a-bcrypt-hash") ≠ .ok true := by
  refine ⟨rfl, ?_, ?_⟩ <;> intro h <;> exact Except.noConfusion h

/-- C3 (amended): `verify_password` returns `false` on any mismatch against a
well-formed bcrypt hash, and on a malformed hash the hashing backend's error
propagates uncaught to the caller. -/
theorem verify_password_outcomes :
    (∀ plain stored : String,
      verify_password plain (.bcrypt stored) = .ok (plain == stored)) ∧
    (∀ plain stored : String, plain ≠ stored →
      verify_password plain (.bcrypt stored) = .ok false) ∧
    (∀ plain raw : String,
      verify_password plain (.malformed raw) = .error .unknownHash) := by
  refine ⟨fun _ _ => rfl, ?_, fun _ _ => rfl⟩
  intro plain stored h
  simp [verify_password, CryptContext.verify, h]

/-- C3 witness: the amended behaviour at concrete inputs. -/
theorem verify_password_outcomes_witness :
    verify_password "pw" (.bcrypt "pw") = .ok true ∧
    verify_password "wrong" (.bcrypt "pw") = .ok false ∧
    verify_password "pw" (.malformed "zzz") = .error .unknownHash :=
  ⟨by simpa using verify_password_outcomes.1 "pw" "pw",
   verify_password_outcomes.2.1 "wrong" "pw" (by decide),
   verify_password_outcomes.2.2 "pw" "zzz"⟩

/-- C5: a token issued at `now` with ttl `ttl` carries absolute expiry
`now + ttl`, and validating it any positive amount of time after that expiry
fails: `decode_access_token` yields no subject and `get_current_user` rejects
the caller with 401. -/
theorem token_expiry_strict (cfg : Settings) (db : List User) (now ttl eps : Int)
    (subject : String) (heps : 0 < eps) :
    create_access_token cfg now subject ttl =
      .signed { sub := some subject, exp := now + ttl } cfg.jwt_secret cfg.jwt_algorithm ∧
    decode_access_token cfg (now + ttl + eps) (create_access_token cfg now subject ttl) =
      none ∧
    get_current_user cfg (now + ttl + eps) db (create_access_token cfg now subject ttl) =
      .error (.http 401 "Invalid token") := by
  have hnotlt : ¬ (now + ttl + eps < now + ttl) := by omega
  refine ⟨rfl, ?_, ?_⟩ <;>
    simp [get_current_user, decode_access_token, create_access_token, jwt.encode,
      jwt.decode, hnotlt]

/-- C5 witness: concrete expiry at `eps = 1` past the ttl. -/
theorem token_expiry_strict_witness :
    create_access_token cfgW 0 "alice" 1800 =
      .signed { sub := some "alice", exp := 1800 } "secret" "HS256" ∧
    decode_access_token cfgW 1801 (create_access_token cfgW 0 "alice" 1800) = none ∧
    get_current_user cfgW 1801 [] (create_access_token cfgW 0 "alice" 1800) =
      .error (.http 401 "Invalid token") :=
  token_expiry_strict cfgW [] 0 1800 1 "alice" (by decide)

/-- C6: a token signed with any secret other than the configured one is
rejected with `InvalidSignature`, whatever its payload (signature checked
before the payload is used), and `decode_access_token` yields no subject. -/
theorem wrong_secret_rejected (cfg : Settings) (now : Int) (payload : JwtPayload)
    (otherSecret alg : String) (hne : otherSecret ≠ cfg.jwt_secret) :
    jwt.decode (.signed payload otherSecret alg) cfg.jwt_secret cfg.jwt_algorithm now =
      .error .invalidSignature ∧
    decode_access_token cfg now (.signed payload otherSecret alg) = none := by
  constructor <;> simp [decode_access_token, jwt.decode, hne]

/-- C6 witness: a well-formed, unexpired payload signed with a wrong secret. -/
theorem wrong_secret_rejected_witness :
    jwt.decode (.signed { sub := some "alice", exp := 1000 } "evil" "HS256")
        "secret" "HS256" 0 = .error .invalidSignature ∧
    decode_access_token cfgW 0
        (.signed { sub := some "alice", exp := 1000 } "evil" "HS256") = none :=
  wrong_secret_rejected cfgW 0 { sub := some "alice", exp := 1000 } "evil" "HS256"
    (by decide)

/-- C7: with no signing secret configured, login fails with the 500
server-misconfiguration error, and the outcome is independent of the store,
the submitted credentials and the clock — no lookup or credential processing
affects it. -/
theorem missing_secret_fail_fast (cfg : Settings) (now nowOther : Int)
    (db dbOther : List User) (payload payloadOther : LoginRequest)
    (hsec : cfg.jwt_secret = "") :
    get_token cfg now db payload = .error (.http 500 "JWT secret is not configured") ∧
    get_token cfg now db payload = get_token cfg nowOther dbOther payloadOther := by
  constructor <;> simp [get_token, hsec]

/-- C7 witness: empty-secret configuration at concrete inputs. -/
theorem missing_secret_fail_fast_witness :
    get_token cfgNoSecret 0 dbW { username := "alice", password := "pw" } =
      .error (.http 500 "JWT secret is not configured") ∧
    get_token cfgNoSecret 0 dbW { username := "alice", password := "pw" } =
      get_token cfgNoSecret 99 [] { username := "bob", password := "q" } :=
  missing_secret_fail_fast cfgNoSecret 0 99 dbW []
    { username := "alice", password := "pw" } { username := "bob", password := "q" } rfl

/-- C8 counterexample: three tokens failing for the three distinct internal
reasons all map to the same `none` under `decode_access_token` — the repo's
parse operation does not produce which kind occurred. -/
theorem decode_collapse_counterexample :
    jwt.decode (.malformed "garbage") "secret" "HS256" 0 = .error .malformedStructure ∧
    jwt.decode (.signed { sub := some "alice", exp := 1000 } "evil" "HS256")
        "secret" "HS256" 0 = .error .invalidSignature ∧
    jwt.decode (.signed { sub := some "alice", exp := -5 } "secret" "HS256")
        "secret" "HS256" 0 = .error .expiredSignature ∧
    decode_access_token cfgW 0 (.malformed "garbage") = none ∧
    decode_access_token cfgW 0
        (.signed { sub := some "alice", exp := 1000 } "evil" "HS256") = none ∧
    decode_access_token cfgW 0
        (.signed { sub := some "alice", exp := -5 } "secret" "HS256") = none := by
  refine ⟨?_, ?_, ?_, ?_, ?_, ?_⟩ <;> decide

/-- C8 (amended): the JWT library distinguishes the failure kinds, but
`decode_access_token` catches every failure uniformly and returns `None`,
discarding the kind. -/
theorem decode_failures_collapse (cfg : Settings) (now : Int) (token : JwtToken)
    (e : JoseError)
    (h : jwt.decode token cfg.jwt_secret cfg.jwt_algorithm now = .error e) :
    decode_access_token cfg now token = none := by
  simp [decode_access_token, h]

/-- C8 witness: the collapse at a concrete failing token. -/
theorem decode_failures_collapse_witness :
    jwt.decode (.malformed "garbage") cfgW.jwt_secret cfgW.jwt_algorithm 0 =
      .error .malformedStructure ∧
    decode_access_token cfgW 0 (.malformed "garbage") = none :=
  ⟨rfl, decode_failures_collapse cfgW 0 (.malformed "garbage") .malformedStructure rfl⟩

/-- C9: both health endpoints answer ok in every store-connectivity state;
`verify_connection` swallows the connectivity error and only reports a
boolean, which `health` ignores. -/
theorem health_always_ok :
    (∀ conn : ConnAttempt, health conn = { status := "ok" }) ∧
    health_check = { status := "ok", message := "Healthy" } ∧
    verify_connection .ok = true ∧
    (∀ msg : String, verify_connection (.operationalError msg) = false) :=
  ⟨fun _ => rfl, rfl, rfl, fun _ => rfl⟩

/-- C4: the wrong password for an existing user and any password for a
nonexistent username produce the very same caller-visible outcome, the 401
`Invalid credentials` error. -/
theorem invalid_login_indistinguishable (cfg : Settings) (db : List User)
    (now nowOther : Int) (u p pBad v q : String) (rec : User)
    (hsec : cfg.jwt_secret ≠ "")
    (hfind : get_user_by_username db u = some rec)
    (hhash : rec.password_hash = .bcrypt p)
    (hbad : pBad ≠ p)
    (hnone : get_user_by_username db v = none) :
    get_token cfg now db { username := u, password := pBad } =
      .error (.http 401 "Invalid credentials") ∧
    get_token cfg nowOther db { username := v, password := q } =
      .error (.http 401 "Invalid credentials") := by
  constructor
  · simp [get_token, hsec, hfind, hhash, verify_password, CryptContext.verify, hbad]
  · simp [get_token, hsec, hnone]

/-- C4 witness: concrete wrong-password and unknown-username logins. -/
theorem invalid_login_indistinguishable_witness :
    get_token cfgW 0 dbW { username := "alice", password := "wrong" } =
      .error (.http 401 "Invalid credentials") ∧
    get_token cfgW 5 dbW { username := "bob", password := "x" } =
      .error (.http 401 "Invalid credentials") :=
  invalid_login_indistinguishable cfgW dbW 0 5 "alice" "pw" "wrong" "bob" "x"
    { username := "alice", password_hash := .bcrypt "pw", created_at := none }
    (by decide) rfl rfl (by decide) rfl

/-- `decode_access_token` yields a subject exactly when the token is signed
with the configured secret and algorithm, is unexpired, and carries that
subject. -/
theorem decode_access_token_eq_some (cfg : Settings) (now : Int) (token : JwtToken)
    (s : String) :
    decode_access_token cfg now token = some s ↔
      ∃ payload : JwtPayload, token = .signed payload cfg.jwt_secret cfg.jwt_algorithm ∧
        now < payload.exp ∧ payload.sub = some s := by
  cases token with
  | malformed raw => simp [decode_access_token, jwt.decode]
  | signed payload ts ta =>
    by_cases hs : ts = cfg.jwt_secret
    · by_cases ha : ta = cfg.jwt_algorithm
      · subst hs; subst ha
        by_cases hexp : now < payload.exp
        · simp [decode_access_token, jwt.decode, hexp]
        · simp [decode_access_token, jwt.decode, hexp]
      · simp [decode_access_token, jwt.decode, ha]
    · simp [decode_access_token, jwt.decode, hs]

/-- C2 counterexample: a token whose signature verifies against the
configured secret and algorithm and whose expiry is strictly in the future
(`jwt.decode` succeeds) is still rejected by `get_current_user` because its
subject is the empty string — a further validity condition beyond (a) and
(b), even with that username present in the store. -/
theorem token_validity_empty_subject_counterexample :
    jwt.decode (.signed { sub := some "", exp := 1800 } "secret" "HS256")
        "secret" "HS256" 10 = .ok { sub := some "", exp := 1800 } ∧
    decode_access_token cfgW 10 (.signed { sub := some "", exp := 1800 } "secret" "HS256") =
      some "" ∧
    get_current_user cfgW 10 dbEmptyName
        (.signed { sub := some "", exp := 1800 } "secret" "HS256") =
      .error (.http 401 "Invalid token") := by
  refine ⟨?_, ?_, ?_⟩ <;> decide

/-- C2 (amended): a token passes `get_current_user`'s token validation (it is
never rejected as `Invalid token`, whatever the store) if and only if
(a) it is signed with the configured secret and algorithm, (b) its embedded
expiry is strictly in the future, and (c) its subject claim is present and
non-empty. -/
theorem token_validity_iff (cfg : Settings) (now : Int) (token : JwtToken) :
    (∀ db : List User, get_current_user cfg now db token ≠ .error (.http 401 "Invalid token")) ↔
      ∃ (payload : JwtPayload) (s : String),
        token = .signed payload cfg.jwt_secret cfg.jwt_algorithm ∧
        now < payload.exp ∧ payload.sub = some s ∧ s ≠ "" := by
  constructor
  · intro h
    cases hdec : decode_access_token cfg now token with
    | none =>
      exact absurd (by simp [get_current_user, hdec]) (h [])
    | some s =>
      by_cases hse : s = ""
      · subst hse
        exact absurd (by simp [get_current_user, hdec]) (h [])
      · obtain ⟨payload, hp, hlt, hsub⟩ := (decode_access_token_eq_some cfg now token s).mp hdec
        exact ⟨payload, s, hp, hlt, hsub, hse⟩
  · rintro ⟨payload, s, rfl, hlt, hsub, hse⟩ db
    have hdec : decode_access_token cfg now
        (.signed payload cfg.jwt_secret cfg.jwt_algorithm) = some s :=
      (decode_access_token_eq_some cfg now _ s).mpr ⟨payload, rfl, hlt, hsub⟩
    cases hfind : get_user_by_username db s with
    | none => simp [get_current_user, hdec, hse, hfind]
    | some user => simp [get_current_user, hdec, hse, hfind]

/-- C10: for every configuration (an unset signing secret included), store
and token, `get_current_user` either returns the stored record whose username
is the token's decoded subject, or fails with a 401 error — never a 5xx and
never an uncaught exception. -/
theorem get_current_user_outcomes (cfg : Settings) (now : Int) (db : List User)
    (token : JwtToken) :
    (∃ (s : String) (user : User), decode_access_token cfg now token = some s ∧
        get_user_by_username db s = some user ∧ user.username = s ∧
        get_current_user cfg now db token = .ok user) ∨
    (∃ detail : String, get_current_user cfg now db token = .error (.http 401 detail)) := by
  cases hdec : decode_access_token cfg now token with
  | none => exact .inr ⟨"Invalid token", by simp [get_current_user, hdec]⟩
  | some s =>
    by_cases hse : s = ""
    · subst hse
      exact .inr ⟨"Invalid token", by simp [get_current_user, hdec]⟩
    · cases hfind : get_user_by_username db s with
      | none =>
        exact .inr ⟨"User not found", by simp [get_current_user, hdec, hse, hfind]⟩
      | some user =>
        refine .inl ⟨s, user, rfl, hfind, username_of_find hfind, ?_⟩
        simp [get_current_user, hdec, hse, hfind]

/-- C1 counterexample: a stored record under the empty-string username, with
the secret configured, the password verifying and the expiry ahead — login
succeeds and issues a token but profile access rejects that token, because
`get_current_user`'s falsy-subject check rejects an empty username. -/
theorem login_roundtrip_empty_username_counterexample :
    verify_password "pw" (StoredHash.bcrypt "pw") = .ok true ∧
    get_token cfgW 0 dbEmptyName { username := "", password := "pw" } =
      .ok { access_token := .signed { sub := some "", exp := 1800 } "secret" "HS256",
            token_type := "bearer" } ∧
    get_current_user cfgW 10 dbEmptyName
        (.signed { sub := some "", exp := 1800 } "secret" "HS256") =
      .error (.http 401 "Invalid token") := by
  refine ⟨?_, ?_, ?_⟩ <;> decide

/-- C1 (amended): for a stored user with a non-empty username, a password the
verifier accepts and a configured secret, login succeeds with a bearer token,
and profile access with that token before its expiry, against any store still
holding that username, resolves to exactly the record stored under it. -/
theorem login_roundtrip (cfg : Settings) (db dbLater : List User)
    (u p : String) (rec recLater : User) (now later : Int)
    (hsec : cfg.jwt_secret ≠ "")
    (hu : u ≠ "")
    (hfind : get_user_by_username db u = some rec)
    (hpw : verify_password p rec.password_hash = .ok true)
    (hfindLater : get_user_by_username dbLater u = some recLater)
    (hexp : later < now + cfg.access_token_expires_delta) :
    get_token cfg now db { username := u, password := p } =
      .ok { access_token := create_access_token cfg now u cfg.access_token_expires_delta,
            token_type := "bearer" } ∧
    get_current_user cfg later dbLater
        (create_access_token cfg now u cfg.access_token_expires_delta) =
      .ok recLater := by
  have husername : rec.username = u := username_of_find hfind
  constructor
  · simp [get_token, hsec, hfind, hpw, husername]
  · simp [get_current_user, decode_access_token, create_access_token, jwt.encode,
      jwt.decode, hexp, hu, hfindLater]

/-- C1 witness: the round trip at concrete inputs. -/
theorem login_roundtrip_witness :
    get_token cfgW 0 dbW { username := "alice", password := "pw" } =
      .ok { access_token := .signed { sub := some "alice", exp := 1800 } "secret" "HS256",
            token_type := "bearer" } ∧
    get_current_user cfgW 10 dbW (.signed { sub := some "alice", exp := 1800 } "secret" "HS256") =
      .ok { username := "alice", password_hash := .bcrypt "pw", created_at := none } :=
  login_roundtrip cfgW dbW dbW "alice" "pw"
    { username := "alice", password_hash := .bcrypt "pw", created_at := none }
    { username := "alice", password_hash := .bcrypt "pw", created_at := none }
    0 10 (by decide) (by decide) rfl rfl rfl (by decide)

end SecureApiGateway
